import Mathlib

/-!
Verification of the dbi-replenishment decision engine.

The development shallowly embeds the tabular pipeline of the repository:
data tables become lists of typed records (pandas DataFrames with a fixed
column schema), numeric cells become rationals, and each pipeline function
of the source becomes a Lean function of the same name.  Python `None`
inputs are represented by `Option`; a `none` or empty table triggers the
same early-return branches as in the source.  The typed embedding assumes
the required columns are present (the per-call MissingColumn checks of the
source cannot fire on a typed record).

Sources embedded:
  - src/assembly_order_generation.py : calculate_sales_velocity,
    calculate_inventory_position, get_replenish_skus,
    analyze_assembly_status, generate_transfer_recommendations,
    calculate_abc_analysis.
  - src/po_generation.py and src/po_generation_app/processing.py (the two
    copies of the PO engine are line-for-line identical in the embedded
    functions): calculate_profit_margin, adjust_sales_velocity,
    calculate_po_quantity, generate_po_csv.
-/

-- Core Rat arithmetic is marked irreducible, which blocks the decide
-- tactic on concrete witnesses; restore default reducibility (the kernel
-- is unaffected either way).
set_option allowUnsafeReducibility true
attribute [semireducible] Rat.inv Rat.mul Rat.add Rat.sub

namespace DBI

/-- Python str.upper, as applied to the flag columns by `.str.upper()`.
Modelled character by character over the underlying character list (the
flag values in scope are ASCII). -/
def py_upper (s : String) : String := ⟨s.data.map Char.toUpper⟩

/-- Python str.lower, as applied to supplier names by `.str.lower()`. -/
def py_lower (s : String) : String := ⟨s.data.map Char.toLower⟩

/-- Python str.startswith, modelled over the character lists. -/
def py_startswith (s pre : String) : Bool := pre.data.isPrefixOf s.data

/-- Python `int(x)`: truncation toward zero. -/
def py_int (x : ℚ) : ℤ := if 0 ≤ x then ⌊x⌋ else ⌈x⌉

/-- The rounding step `int(x) + 1 if x > int(x) else int(x)` used by
calculate_po_quantity. -/
def py_round_up (x : ℚ) : ℤ := if (py_int x : ℚ) < x then py_int x + 1 else py_int x

/-! ## Availability records and the Inventory Position Calculator
(src/assembly_order_generation.py, calculate_inventory_position) -/

/-- One row of the Availability Report: columns SKU, Location, OnHand,
OnOrder, InTransit and the optional ProductName. SKUs are already
normalized strings (the source coerces with astype(str)). -/
structure AvailabilityRecord where
  sku : String
  location : String
  onHand : ℚ
  onOrder : ℚ
  inTransit : ℚ
  productName : String := ""
  deriving Repr, DecidableEq

/-- The dictionary returned by calculate_inventory_position. -/
structure InventoryPosition where
  on_hand : ℚ
  on_order : ℚ
  in_transit : ℚ
  total_available : ℚ
  deriving Repr, DecidableEq

/-- Location triple used for warehouse NC. -/
def nc_locations : List String := ["NC - Main", "NC - Armory", "NC - FFL"]

/-- Location triple used for warehouse CA. -/
def ca_locations : List String := ["CA - Main", "CA - Armory", "CA - FFL"]

/-- Embedding of calculate_inventory_position: filter the availability
table to the exact SKU, then to the requested locations, and sum the
three stock columns. The source returns an all-zero dictionary when the
table is empty or the SKU is absent. -/
def calculate_inventory_position (availability_df : List AvailabilityRecord)
    (sku : String) (locations : List String) : InventoryPosition :=
  if availability_df.isEmpty then ⟨0, 0, 0, 0⟩ else
  let sku_data := availability_df.filter fun r => r.sku == sku
  if sku_data.isEmpty then ⟨0, 0, 0, 0⟩ else
  let location_data := sku_data.filter fun r => locations.contains r.location
  let on_hand := (location_data.map fun r => r.onHand).sum
  let on_order := (location_data.map fun r => r.onOrder).sum
  let in_transit := (location_data.map fun r => r.inTransit).sum
  ⟨on_hand, on_order, in_transit, on_hand + on_order + in_transit⟩

/-! ## Sales Velocity Estimator
(src/assembly_order_generation.py, calculate_sales_velocity) -/

/-- One row of a By Products sales table: the value of the first (SKU)
column plus the remaining cells keyed by column header. A header missing
from the cell list reads as 0, matching skipna row sums. -/
structure SalesRow where
  sku : String
  cells : List (String × ℚ)
  deriving Repr, DecidableEq

/-- A wide SKU-by-month sales table: the full header list (first entry is
the SKU column) plus the rows. -/
structure SalesTable where
  cols : List String
  rows : List SalesRow
  deriving Repr, DecidableEq

/-- Output row of calculate_sales_velocity. -/
structure VelocityRow where
  sku : String
  avg_daily_sales : ℚ
  avg_monthly_sales : ℚ
  deriving Repr, DecidableEq

/-- Cell lookup with the 0 default for missing values. -/
def cell_value (row : SalesRow) (col : String) : ℚ :=
  match row.cells.lookup col with
  | some v => v
  | none => 0

/-- The sales columns: every header other than the SKU column name and
not starting with Total or Average. -/
def sales_columns (t : SalesTable) : List String :=
  let sku_col := t.cols.headD ""
  t.cols.filter fun col =>
    col != sku_col && !(py_startswith col "Total") && !(py_startswith col "Average")

/-- Row total over the sales columns (total_6_months in the source). -/
def total_6_months (t : SalesTable) (row : SalesRow) : ℚ :=
  ((sales_columns t).map (cell_value row)).sum

/-- Embedding of calculate_sales_velocity: per row, sum the sales columns
and divide by 6 for the monthly and by 6 and then 30 for the daily
velocity. -/
def calculate_sales_velocity (sales_df : Option SalesTable) : List VelocityRow :=
  match sales_df with
  | none => []
  | some t =>
    if t.rows.isEmpty then [] else
    t.rows.map fun row =>
      { sku := row.sku
        avg_daily_sales := total_6_months t row / 6 / 30
        avg_monthly_sales := total_6_months t row / 6 }

/-! ## Replenishment Selector
(src/assembly_order_generation.py, get_replenish_skus) -/

/-- One row of the Inventory List with the columns used by the selector. -/
structure InventoryRecord where
  productCode : String
  assemblyBOM : String
  autoAssemble : String
  autoDisassemble : String
  deriving Repr, DecidableEq

/-- One row of the BOM Report. -/
structure BomRecord where
  productSku : String
  productName : String
  componentSku : String
  componentName : String
  quantity : ℚ
  deriving Repr, DecidableEq

/-- A row appended to replenish_list by get_replenish_skus. -/
structure ReplenishmentCandidate where
  sku : String
  avg_daily_sales : ℚ
  avg_monthly_sales : ℚ
  available_in_warehouse : ℚ
  warehouse : String
  on_order : ℚ
  target_inventory : ℚ
  qty_for_assembly : ℤ
  deriving Repr, DecidableEq

/-- The hardcoded SKU exclusion list of the eligibility filter. -/
def excluded_sku_list : List String := ["2444", "4300", "3818", "2582"]

/-- The eligibility filter on the Inventory List: AssemblyBOM YES,
AutoAssemble NO, AutoDisassemble NO, SKU not excluded (flag comparison is
case-insensitive through str.upper). -/
def eligible_filter (r : InventoryRecord) : Bool :=
  py_upper r.assemblyBOM == "YES" &&
  py_upper r.autoAssemble == "NO" &&
  py_upper r.autoDisassemble == "NO" &&
  !(excluded_sku_list.contains r.productCode)

/-- The bounded quantity computed inside get_replenish_skus:
base_qty is the ceiling of monthly sales minus availability floored at 2,
max_reasonable_qty caps at three monthly sales floored at 10, and the
absolute cap is 1000; the emitted quantity is the minimum of the three. -/
def qty_for_assembly (avg_monthly_sales available_in_warehouse : ℚ) : ℤ :=
  let base_calculation := avg_monthly_sales - available_in_warehouse
  let base_qty : ℤ := if 0 < base_calculation then max 2 ⌈base_calculation⌉ else 2
  let max_reasonable_qty : ℤ := max 10 ⌈avg_monthly_sales * 3⌉
  let absolute_max : ℤ := 1000
  min (min base_qty max_reasonable_qty) absolute_max

/-- The lookup sales_data['avg_daily_sales'].iloc[0] with 0 for an empty
match, where sales_data is the velocity table filtered to the SKU. -/
def first_daily (sales_data : List VelocityRow) : ℚ :=
  match sales_data.head? with
  | some v => v.avg_daily_sales
  | none => 0

/-- The lookup sales_data['avg_monthly_sales'].iloc[0] with 0 for an
empty match. -/
def first_monthly (sales_data : List VelocityRow) : ℚ :=
  match sales_data.head? with
  | some v => v.avg_monthly_sales
  | none => 0

/-- Does the per-SKU body of get_replenish_skus append a candidate row?
It requires needs_replenishment (available plus on-order below the
monthly velocity) together with a positive replenishment_qty. -/
def produces_candidate (total_available on_order avg_daily avg_monthly : ℚ) : Prop :=
  total_available + on_order < avg_monthly ∧ 0 < max 0 (avg_daily * 30 - total_available)

instance (a b c d : ℚ) : Decidable (produces_candidate a b c d) :=
  inferInstanceAs (Decidable (And _ _))

/-- Embedding of get_replenish_skus. A missing (None) or empty input
table short-circuits to the empty result, exactly as the guard at the top
of the source function does. -/
def get_replenish_skus (bom_df : Option (List BomRecord))
    (inventory_df : Option (List InventoryRecord))
    (availability_df : Option (List AvailabilityRecord))
    (sales_velocity_df : Option (List VelocityRow))
    (warehouse : String) : List ReplenishmentCandidate :=
  match bom_df, inventory_df, availability_df, sales_velocity_df with
  | some bom, some inventory, some availability, some sales_velocity =>
    if bom.isEmpty || inventory.isEmpty || availability.isEmpty || sales_velocity.isEmpty
    then []
    else
      let eligible_skus := ((inventory.filter eligible_filter).map
        fun r => r.productCode).eraseDups
      eligible_skus.filterMap fun sku =>
        let locations := if warehouse == "NC" then nc_locations else ca_locations
        let inv_position := calculate_inventory_position availability sku locations
        let avg_daily_sales := first_daily (sales_velocity.filter fun v => v.sku == sku)
        let avg_monthly_sales := first_monthly (sales_velocity.filter fun v => v.sku == sku)
        let days_of_stock : ℚ := 30
        let target_inventory := avg_daily_sales * days_of_stock
        let available_in_warehouse := inv_position.total_available
        if produces_candidate available_in_warehouse inv_position.on_order
            avg_daily_sales avg_monthly_sales then
          some { sku := sku
                 avg_daily_sales := avg_daily_sales
                 avg_monthly_sales := avg_monthly_sales
                 available_in_warehouse := available_in_warehouse
                 warehouse := warehouse
                 on_order := inv_position.on_order
                 target_inventory := target_inventory
                 qty_for_assembly := qty_for_assembly avg_monthly_sales available_in_warehouse }
        else none
  | _, _, _, _ => []

/-! ## Assembly Feasibility Analyzer
(src/assembly_order_generation.py, analyze_assembly_status) -/

/-- Per-component dictionary produced by the analyzer. -/
structure ComponentAnalysis where
  component_sku : String
  component_name : String
  qty_per_assembly : ℚ
  total_needed : ℚ
  available : ℚ
  shortage : ℚ
  status : String
  deriving Repr, DecidableEq

/-- Per-assembly dictionary produced by the analyzer. -/
structure AssemblyAnalysis where
  assembly_sku : String
  assembly_name : String
  qty_for_assembly : ℤ
  assembly_status : String
  avg_daily_sales : ℚ
  avg_monthly_sales : ℚ
  available_in_warehouse : ℚ
  warehouse : String
  components : List ComponentAnalysis
  total_components : ℕ
  ready_components : ℕ
  deriving Repr, DecidableEq

/-- The per-component body of the analyzer loop. -/
def component_analysis_of (availability : List AvailabilityRecord)
    (locations : List String) (qty_needed : ℤ) (comp : BomRecord) : ComponentAnalysis :=
  let qty_per_assembly := comp.quantity
  let total_component_needed := qty_per_assembly * (qty_needed : ℚ)
  let component_inv := calculate_inventory_position availability comp.componentSku locations
  let status := if total_component_needed ≤ component_inv.total_available
    then "Ready" else "Shortage"
  { component_sku := comp.componentSku
    component_name := comp.componentName
    qty_per_assembly := qty_per_assembly
    total_needed := total_component_needed
    available := component_inv.total_available
    shortage := max 0 (total_component_needed - component_inv.total_available)
    status := status }

/-- The product-name pick of the analyzer: first matching BOM row wins. -/
def first_product_name (assembly_components : List BomRecord) : String :=
  match assembly_components.head? with
  | some b => b.productName
  | none => ""

/-- The per-candidate body of the analyzer loop: none when the candidate
has no matching BOM row, otherwise the per-component analyses with the
feasibility fold (assembly_feasible starts true and the loop clears it on
any Shortage component, exactly as in the source). -/
def assembly_analysis_of (bom : List BomRecord)
    (availability : List AvailabilityRecord) (warehouse : String)
    (row : ReplenishmentCandidate) : Option AssemblyAnalysis :=
  let assembly_components := bom.filter fun b => b.productSku == row.sku
  if assembly_components.isEmpty then none else
  let locations := if warehouse == "NC" then nc_locations else ca_locations
  let component_analysis := assembly_components.map
    (component_analysis_of availability locations row.qty_for_assembly)
  let assembly_feasible := component_analysis.foldl
    (fun acc c => if c.status == "Shortage" then false else acc) true
  some { assembly_sku := row.sku
         assembly_name := first_product_name assembly_components
         qty_for_assembly := row.qty_for_assembly
         assembly_status := if assembly_feasible then "Ready for Production"
           else "Cannot Assemble"
         avg_daily_sales := row.avg_daily_sales
         avg_monthly_sales := row.avg_monthly_sales
         available_in_warehouse := row.available_in_warehouse
         warehouse := row.warehouse
         components := component_analysis
         total_components := component_analysis.length
         ready_components := (component_analysis.filter
           fun c => c.status == "Ready").length }

/-- Embedding of analyze_assembly_status. -/
def analyze_assembly_status (bom_df : Option (List BomRecord))
    (availability_df : Option (List AvailabilityRecord))
    (replenish_df : Option (List ReplenishmentCandidate))
    (warehouse : String) : List AssemblyAnalysis :=
  match bom_df, availability_df, replenish_df with
  | some bom, some availability, some replenish =>
    if bom.isEmpty || availability.isEmpty || replenish.isEmpty then [] else
    replenish.filterMap (assembly_analysis_of bom availability warehouse)
  | _, _, _ => []

/-! ## Transfer Recommender
(src/assembly_order_generation.py, generate_transfer_recommendations) -/

/-- One transfer recommendation dictionary. -/
structure TransferRecommendation where
  sku : String
  product_name : String
  from_location : String
  to_location : String
  available_armory : ℚ
  current_main : ℚ
  recommended_transfer : ℚ
  reason : String
  deriving Repr, DecidableEq

/-- The Armory location of a warehouse. -/
def armory_location (warehouse : String) : String :=
  if warehouse == "NC" then "NC - Armory" else "CA - Armory"

/-- The Main location of a warehouse. -/
def main_location (warehouse : String) : String :=
  if warehouse == "NC" then "NC - Main" else "CA - Main"

/-- Embedding of generate_transfer_recommendations: walk the Armory rows
of the availability table; recommend when the row has more than 20 on
hand, the SKU is not a BOM component, the Main position is below 20 on
hand, and the min-rule quantity is positive. -/
def generate_transfer_recommendations (availability_df : Option (List AvailabilityRecord))
    (bom_df : Option (List BomRecord)) (warehouse : String) : List TransferRecommendation :=
  match availability_df with
  | none => []
  | some availability =>
    if availability.isEmpty then [] else
    -- set(bom_df['Component SKU'].unique()): only membership is ever
    -- tested, so the set is modelled by the column list itself.
    let bom_component_skus : List String := match bom_df with
      | some bom => bom.map fun b => b.componentSku
      | none => []
    let armory_data := availability.filter fun r => r.location == armory_location warehouse
    armory_data.filterMap fun item =>
      let on_hand_armory := item.onHand
      if 20 < on_hand_armory && !(bom_component_skus.contains item.sku) then
        let main_inv := calculate_inventory_position availability item.sku
          [main_location warehouse]
        if main_inv.on_hand < 20 then
          let transfer_qty := min (on_hand_armory - 20) (20 - main_inv.on_hand)
          if 0 < transfer_qty then
            some { sku := item.sku
                   product_name := item.productName
                   from_location := armory_location warehouse
                   to_location := main_location warehouse
                   available_armory := on_hand_armory
                   current_main := main_inv.on_hand
                   recommended_transfer := transfer_qty
                   reason := "Balance inventory (not needed for assemblies)" }
          else none
        else none
      else none

/-! ## ABC Classifier
(src/assembly_order_generation.py, calculate_abc_analysis) -/

/-- One row of the profit table: the SKU cell plus the remaining profit
cells of the row (all non-SKU columns are summed with skipna). -/
structure ProfitRow where
  sku : String
  profits : List ℚ
  deriving Repr, DecidableEq

/-- Output row of calculate_abc_analysis. -/
structure AbcRecord where
  sku : String
  total_profit : ℚ
  abc_category : String
  deriving Repr, DecidableEq

/-- Result of a pandas float division, covering the division-by-zero
values the float pipeline produces instead of raising. -/
inductive PandasRatio where
  | val : ℚ → PandasRatio
  | posInf : PandasRatio
  | negInf : PandasRatio
  | nan : PandasRatio
  deriving Repr, DecidableEq

/-- Float division num / den with IEEE semantics at den = 0. -/
def pandas_div (num den : ℚ) : PandasRatio :=
  if den = 0 then
    (if 0 < num then .posInf else if num < 0 then .negInf else .nan)
  else .val (num / den)

/-- Comparison x <= c on a pandas float: NaN compares false. -/
def pandas_le (x : PandasRatio) (c : ℚ) : Bool :=
  match x with
  | .val q => q ≤ c
  | .posInf => false
  | .negInf => true
  | .nan => false

/-- Comparison x > c on a pandas float: NaN compares false. -/
def pandas_gt (x : PandasRatio) (c : ℚ) : Bool :=
  match x with
  | .val q => c < q
  | .posInf => true
  | .negInf => false
  | .nan => false

/-- Category assignment of the source: default C, overwrite with A where
the cumulative percentage is at most 0.70, then overwrite with B where it
lies in (0.70, 0.90]. -/
def abc_category_of (pct : PandasRatio) : String :=
  let cat := "C"
  let cat := if pandas_le pct (70/100) then "A" else cat
  let cat := if pandas_gt pct (70/100) && pandas_le pct (90/100) then "B" else cat
  cat

/-- Cumulative sums down the sorted (SKU, total_profit) list, carrying
the running total: the third component is the cumulative profit at the
row. -/
def cumulative_profit : ℚ → List (String × ℚ) → List (String × ℚ × ℚ)
  | _, [] => []
  | acc, (s, p) :: rest => (s, p, acc + p) :: cumulative_profit (acc + p) rest

/-- Embedding of calculate_abc_analysis: per-row profit totals, sort
descending by total (sort_values; the embedding uses insertion sort, and
no stated property depends on the tie-breaking of the sort), cumulative
sums, percentage of the overall total with float division semantics, then
the A / B / C masks. -/
def calculate_abc_analysis (profit_df : Option (List ProfitRow)) : List AbcRecord :=
  match profit_df with
  | none => []
  | some rows =>
    if rows.isEmpty then [] else
    let with_total := rows.map fun r => (r.sku, r.profits.sum)
    let sorted := with_total.insertionSort fun a b => b.2 ≤ a.2
    let total_profit := (sorted.map fun x => x.2).sum
    (cumulative_profit 0 sorted).map fun t =>
      { sku := t.1
        total_profit := t.2.1
        abc_category := abc_category_of (pandas_div t.2.2 total_profit) }

/-! ## Purchase Order Quantity Engine
(src/po_generation.py and src/po_generation_app/processing.py; the
embedded functions are identical in both copies) -/

/-- One merged per-SKU row as it reaches the PO pipeline after the joins:
replenishment report fields (base velocity, lead time, cost price),
inventory master fields (supplier, codes, name) and the aggregated stock
columns. lastSuppliedBy is an Option because the notna filter drops
missing suppliers. -/
structure PoRow where
  sku : String
  lastSuppliedBy : Option String
  supplierProductCode : String
  productName : String
  costPrice : ℚ
  leadTime : ℚ
  adjustedSalesVelocityPerDay : ℚ
  totalSales : ℚ
  totalProfit : ℚ
  totalStock : ℚ
  totalOnOrder : ℚ
  deriving Repr, DecidableEq

/-- calculate_profit_margin on one row: TotalProfit over TotalSales, 0
when TotalSales is 0. -/
def calculate_profit_margin (r : PoRow) : ℚ :=
  if r.totalSales ≠ 0 then r.totalProfit / r.totalSales else 0

/-- The margin-and-price-tier adjustment table of adjust_sales_velocity,
with the exact bracket gaps of the source (a margin falling in a gap
reaches the final return 0). -/
def get_adjustment (margin price : ℚ) : ℚ :=
  if price < 100 then
    if margin < 1/10 then -8/10
    else if 1/10 ≤ margin ∧ margin < 2/10 then -5/10
    else if 2/10 ≤ margin ∧ margin < 25/100 then -2/10
    else if 26/100 ≤ margin ∧ margin ≤ 33/100 then 0
    else if 33/100 < margin then 1/10
    else 0
  else if 100 ≤ price ∧ price < 250 then
    if margin < 1/10 then -8/10
    else if 1/10 ≤ margin ∧ margin < 2/10 then -5/10
    else if 2/10 ≤ margin ∧ margin ≤ 3/10 then 0
    else if 3/10 < margin then 5/100
    else 0
  else if 250 ≤ price ∧ price < 750 then
    if margin < 5/100 then -8/10
    else if 5/100 ≤ margin ∧ margin < 15/100 then -5/10
    else if 15/100 ≤ margin ∧ margin ≤ 28/100 then 0
    else if 28/100 < margin then 3/100
    else 0
  else if 750 ≤ price then
    if margin < 5/100 then -9/10
    else if 5/100 ≤ margin ∧ margin < 12/100 then -6/10
    else if 12/100 ≤ margin ∧ margin ≤ 25/100 then 0
    else if 25/100 < margin then 2/100
    else 0
  else 0

/-- VelocityAdjustment column of adjust_sales_velocity. -/
def velocity_adjustment (r : PoRow) : ℚ :=
  get_adjustment (calculate_profit_margin r) r.costPrice

/-- AdjustedSalesVelocity column: the input velocity scaled by one plus
the adjustment. -/
def adjusted_sales_velocity (r : PoRow) : ℚ :=
  r.adjustedSalesVelocityPerDay * (1 + velocity_adjustment r)

/-- DaysOfStock column of calculate_po_quantity: lead time plus 3. -/
def days_of_stock (r : PoRow) : ℚ := r.leadTime + 3

/-- TargetStock column of calculate_po_quantity. -/
def target_stock (r : PoRow) : ℚ := adjusted_sales_velocity r * days_of_stock r

/-- PO_Quantity column of calculate_po_quantity: target minus current
minus on-order stock, clamped at 0, then the int-plus-one rounding. -/
def calculate_po_quantity (r : PoRow) : ℤ :=
  let po_quantity := target_stock r - r.totalStock - r.totalOnOrder
  let po_quantity := if po_quantity < 0 then 0 else po_quantity
  py_round_up po_quantity

/-- One exported PO line of generate_po_csv after the column renames. -/
structure PoLine where
  supplierName : String
  supplierProductCode : String
  product : String
  productName : String
  quantity : ℤ
  price : ℚ
  leadTime : ℚ
  adjustedMonthlySales : ℚ
  deriving Repr, DecidableEq

/-- The per-row PO line before filtering and aggregation. The Adjusted
Monthly Sales column is the raw input velocity column times 30, written
by generate_po_csv before any aggregation. -/
def po_line_of (r : PoRow) (supplier : String) : PoLine :=
  { supplierName := supplier
    supplierProductCode := r.supplierProductCode
    product := r.sku
    productName := r.productName
    quantity := calculate_po_quantity r
    price := r.costPrice
    leadTime := r.leadTime
    adjustedMonthlySales := r.adjustedSalesVelocityPerDay * 30 }

/-- Embedding of generate_po_csv: build per-row lines (dropping rows
whose supplier is missing), keep positive quantities, drop excluded
suppliers case-insensitively, then group by supplier, product and price,
summing the quantity and taking the first value of every other column.
The source emits the groups in pandas key-sorted order; the groups are
listed here in first-occurrence order, and no stated property depends on
the group order. -/
def generate_po_csv (df : List PoRow) (excluded_suppliers : List String) : List PoLine :=
  let po_data := df.filterMap fun r =>
    match r.lastSuppliedBy with
    | none => none
    | some supplier => some (po_line_of r supplier)
  let po_data := po_data.filter fun l => 0 < l.quantity
  let po_data := po_data.filter fun l =>
    !(excluded_suppliers.contains (py_lower l.supplierName))
  let group_keys := (po_data.map fun l => (l.supplierName, l.product, l.price)).eraseDups
  group_keys.filterMap fun k =>
    let grp := po_data.filter fun l => (l.supplierName, l.product, l.price) == k
    match grp.head? with
    | none => none
    | some h => some { h with quantity := (grp.map fun l => l.quantity).sum }

/-! ## Concrete input data used by the claim witnesses -/

/-- A By Products - Quantity table: one SKU, six months of 30 units and a
Total column that the estimator must ignore. -/
def ex_sales_table : SalesTable :=
  { cols := ["Item", "Jan", "Feb", "Mar", "Apr", "May", "Jun", "Total"]
    rows := [{ sku := "100"
               cells := [("Jan", 30), ("Feb", 30), ("Mar", 30), ("Apr", 30),
                         ("May", 30), ("Jun", 30), ("Total", 999)] }] }

/-- Inventory List row making SKU 100 eligible for replenishment. -/
def ex_inventory : List InventoryRecord :=
  [{ productCode := "100", assemblyBOM := "Yes", autoAssemble := "no",
     autoDisassemble := "NO" }]

/-- Availability rows: SKU 100 with 5 on hand in NC - Main, and component
stock of C1 but none of C2. -/
def ex_availability : List AvailabilityRecord :=
  [{ sku := "100", location := "NC - Main", onHand := 5, onOrder := 0, inTransit := 0 },
   { sku := "C1", location := "NC - Main", onHand := 100, onOrder := 0, inTransit := 0 }]

/-- BOM with two components for assembly 100: one amply stocked, one not
stocked at all. -/
def ex_bom : List BomRecord :=
  [{ productSku := "100", productName := "Widget", componentSku := "C1",
     componentName := "Body", quantity := 1 },
   { productSku := "100", productName := "Widget", componentSku := "C2",
     componentName := "Spring", quantity := 2 }]

/-- The same BOM with the component rows swapped. -/
def ex_bom_reversed : List BomRecord :=
  [{ productSku := "100", productName := "Widget", componentSku := "C2",
     componentName := "Spring", quantity := 2 },
   { productSku := "100", productName := "Widget", componentSku := "C1",
     componentName := "Body", quantity := 1 }]

/-- Velocity for SKU 100: 10 units a month. -/
def ex_velocity : List VelocityRow :=
  [{ sku := "100", avg_daily_sales := 1/3, avg_monthly_sales := 10 }]

/-- The candidate row the selector emits on the example data
(base_qty = ceil(10 - 5) = 5, capped at min(5, 30, 1000) = 5). -/
def ex_candidate : ReplenishmentCandidate :=
  { sku := "100", avg_daily_sales := 1/3, avg_monthly_sales := 10
    available_in_warehouse := 5, warehouse := "NC", on_order := 0
    target_inventory := 10, qty_for_assembly := 5 }

/-- An availability record whose location is outside the NC triple. -/
def ex_outside_record : AvailabilityRecord :=
  { sku := "100", location := "NC - Overflow", onHand := 77, onOrder := 1, inTransit := 2 }

/-- Availability for the transfer example: SKU 200 with 35 on hand in the
Armory and 5 in Main. -/
def ex_transfer_availability : List AvailabilityRecord :=
  [{ sku := "200", location := "NC - Armory", onHand := 35, onOrder := 0, inTransit := 0 },
   { sku := "200", location := "NC - Main", onHand := 5, onOrder := 0, inTransit := 0 }]

/-- The expected transfer recommendation: min(35 - 20, 20 - 5) = 15. -/
def ex_transfer : TransferRecommendation :=
  { sku := "200", product_name := "", from_location := "NC - Armory"
    to_location := "NC - Main", available_armory := 35, current_main := 5
    recommended_transfer := 15, reason := "Balance inventory (not needed for assemblies)" }

/-- Profit table whose overall total is exactly 0. -/
def ex_profit : List ProfitRow :=
  [{ sku := "a", profits := [5] }, { sku := "b", profits := [-5] }]

/-- The classifier output row for the nonpositive contributor of
ex_profit. -/
def ex_profit_record : AbcRecord := { sku := "b", total_profit := -5, abc_category := "C" }

/-- A PO input row with margin 0.4 in the under-100 price tier, so the
velocity adjustment is +0.1 and the adjusted velocity is 1.1 per day. -/
def ex_po_row : PoRow :=
  { sku := "X", lastSuppliedBy := some "acme", supplierProductCode := ""
    productName := "", costPrice := 50, leadTime := 0
    adjustedSalesVelocityPerDay := 1, totalSales := 100, totalProfit := 40
    totalStock := 0, totalOnOrder := 0 }

/-- The single PO line generated from ex_po_row: quantity ceil(3.3) = 4
and Adjusted Monthly Sales 1 * 30 = 30. -/
def ex_po_line : PoLine :=
  { supplierName := "acme", supplierProductCode := "", product := "X"
    productName := "", quantity := 4, price := 50, leadTime := 0
    adjustedMonthlySales := 30 }

/-- A PO input row already holding more stock than its target. -/
def ex_po_row_stocked : PoRow :=
  { sku := "Y", lastSuppliedBy := some "acme", supplierProductCode := ""
    productName := "", costPrice := 50, leadTime := 7
    adjustedSalesVelocityPerDay := 2, totalSales := 100, totalProfit := 40
    totalStock := 90, totalOnOrder := 10 }

/-! ## List helpers -/

theorem mem_of_head_opt {α : Type} {l : List α} {a : α} (h : l.head? = some a) :
    a ∈ l := by
  cases l with
  | nil => simp at h
  | cons x xs =>
    simp only [List.head?_cons, Option.some.injEq] at h
    exact h ▸ List.mem_cons_self x xs

theorem sum_triple_split (l : List AvailabilityRecord) :
    (l.map fun r => r.onHand).sum + (l.map fun r => r.onOrder).sum +
      (l.map fun r => r.inTransit).sum =
    (l.map fun r => r.onHand + r.onOrder + r.inTransit).sum := by
  induction l with
  | nil => simp
  | cons x xs ih =>
    simp only [List.map_cons, List.sum_cons]
    rw [← ih]
    ring

/-! ## Claim C5: the Inventory Position Calculator -/

/-- Normal form of calculate_inventory_position: the early-return
branches coincide with the sums over the doubly filtered table. -/
theorem calculate_inventory_position_eq (availability_df : List AvailabilityRecord)
    (sku : String) (locations : List String) :
    calculate_inventory_position availability_df sku locations =
      { on_hand := (((availability_df.filter fun r => r.sku == sku).filter
          fun r => locations.contains r.location).map fun r => r.onHand).sum
        on_order := (((availability_df.filter fun r => r.sku == sku).filter
          fun r => locations.contains r.location).map fun r => r.onOrder).sum
        in_transit := (((availability_df.filter fun r => r.sku == sku).filter
          fun r => locations.contains r.location).map fun r => r.inTransit).sum
        total_available :=
          (((availability_df.filter fun r => r.sku == sku).filter
            fun r => locations.contains r.location).map fun r => r.onHand).sum +
          (((availability_df.filter fun r => r.sku == sku).filter
            fun r => locations.contains r.location).map fun r => r.onOrder).sum +
          (((availability_df.filter fun r => r.sku == sku).filter
            fun r => locations.contains r.location).map fun r => r.inTransit).sum } := by
  by_cases h1 : availability_df.isEmpty
  · rw [List.isEmpty_iff] at h1
    subst h1
    simp [calculate_inventory_position]
  · by_cases h2 : (availability_df.filter fun r => r.sku == sku).isEmpty
    · rw [List.isEmpty_iff] at h2
      simp [calculate_inventory_position, h1, h2]
    · simp [calculate_inventory_position, h1, h2]

/-- C5: total_available is the unweighted sum of OnHand + OnOrder +
InTransit over exactly the records whose SKU matches and whose Location
lies in the given set, and appending a record for a location outside the
set leaves the whole result unchanged. -/
theorem inventory_position_sum_and_outside_location (availability_df : List AvailabilityRecord)
    (sku : String) (locations : List String) (extra : AvailabilityRecord)
    (hextra : ¬ locations.contains extra.location) :
    (calculate_inventory_position availability_df sku locations).total_available =
      ((availability_df.filter fun r => r.sku == sku && locations.contains r.location).map
        fun r => r.onHand + r.onOrder + r.inTransit).sum ∧
    calculate_inventory_position (availability_df ++ [extra]) sku locations =
      calculate_inventory_position availability_df sku locations := by
  constructor
  · have hfilter : (availability_df.filter
        fun r => r.sku == sku && locations.contains r.location) =
        ((availability_df.filter fun r => r.sku == sku).filter
          fun r => locations.contains r.location) := by
      rw [List.filter_filter]
      exact List.filter_congr fun a _ => Bool.and_comm _ _
    rw [calculate_inventory_position_eq, hfilter, ← sum_triple_split]
  · have key : ((availability_df ++ [extra]).filter fun r => r.sku == sku).filter
          (fun r => locations.contains r.location) =
        (availability_df.filter fun r => r.sku == sku).filter
          (fun r => locations.contains r.location) := by
      rw [List.filter_append, List.filter_append]
      have hextra2 : ((List.filter (fun r => r.sku == sku) [extra]).filter
          fun r => locations.contains r.location) = [] := by
        by_cases hsku : extra.sku == sku
        · simp only [List.filter_cons, hsku, if_true, List.filter_nil]
          rw [if_neg]
          simpa using hextra
        · simp [List.filter_cons, hsku]
      rw [hextra2, List.append_nil]
    rw [calculate_inventory_position_eq, calculate_inventory_position_eq, key]

/-- C5 witness: the example availability table summed over the NC
locations, with a record at the out-of-set NC - Overflow location
appended. -/
theorem inventory_position_sum_and_outside_location_witness :
    (calculate_inventory_position ex_availability "100" nc_locations).total_available =
      ((ex_availability.filter fun r => r.sku == "100" && nc_locations.contains r.location).map
        fun r => r.onHand + r.onOrder + r.inTransit).sum ∧
    calculate_inventory_position (ex_availability ++ [ex_outside_record]) "100" nc_locations =
      calculate_inventory_position ex_availability "100" nc_locations :=
  inventory_position_sum_and_outside_location ex_availability "100" nc_locations
    ex_outside_record (by decide)

/-! ## Claim C4: the PO quantity rounding -/

/-- The int-plus-one rounding of the source is the ceiling on nonnegative
inputs. -/
theorem py_round_up_eq_ceil {x : ℚ} (hx : 0 ≤ x) : py_round_up x = ⌈x⌉ := by
  unfold py_round_up py_int
  rw [if_pos hx]
  by_cases h : (⌊x⌋ : ℚ) < x
  · rw [if_pos h]
    have h1 : ⌈x⌉ ≤ ⌊x⌋ + 1 := Int.ceil_le_floor_add_one x
    have h2 : ⌊x⌋ < ⌈x⌉ := Int.lt_ceil.mpr h
    omega
  · rw [if_neg h]
    have hfl : x = (⌊x⌋ : ℚ) := le_antisymm (not_lt.mp h) (Int.floor_le x)
    have hceil : ⌈x⌉ = ⌊x⌋ := by
      conv_lhs => rw [hfl]
      exact Int.ceil_intCast _
    rw [hceil]

/-- C4: every PO quantity is the ceiling of
max(0, target_stock - current_stock - on_order_stock); in particular the
quantity is 0 whenever current plus on-order stock covers the target. -/
theorem po_quantity_is_clamped_ceiling (r : PoRow) :
    calculate_po_quantity r = ⌈max 0 (target_stock r - r.totalStock - r.totalOnOrder)⌉ ∧
    (target_stock r ≤ r.totalStock + r.totalOnOrder → calculate_po_quantity r = 0) := by
  have hmax : calculate_po_quantity r =
      py_round_up (max 0 (target_stock r - r.totalStock - r.totalOnOrder)) := by
    show py_round_up (if target_stock r - r.totalStock - r.totalOnOrder < 0 then 0
        else target_stock r - r.totalStock - r.totalOnOrder) =
      py_round_up (max 0 (target_stock r - r.totalStock - r.totalOnOrder))
    by_cases h : target_stock r - r.totalStock - r.totalOnOrder < 0
    · rw [if_pos h, max_eq_left (le_of_lt h)]
    · rw [if_neg h, max_eq_right (not_lt.mp h)]
  constructor
  · rw [hmax]
    exact py_round_up_eq_ceil (le_max_left 0 _)
  · intro hcov
    have hz : max 0 (target_stock r - r.totalStock - r.totalOnOrder) = 0 :=
      max_eq_left (by linarith)
    rw [hmax, hz]
    decide

/-- C4 witness: a row whose stock already covers the target gets PO
quantity 0 (and the ceiling form holds on the fractional example row). -/
theorem po_quantity_is_clamped_ceiling_witness :
    calculate_po_quantity ex_po_row_stocked = 0 ∧
    calculate_po_quantity ex_po_row = ⌈max 0 (target_stock ex_po_row -
      ex_po_row.totalStock - ex_po_row.totalOnOrder)⌉ :=
  ⟨(po_quantity_is_clamped_ceiling ex_po_row_stocked).2 (by decide),
   (po_quantity_is_clamped_ceiling ex_po_row).1⟩

/-! ## Claims C3 and C10: the bounded replenishment quantity -/

/-- The base quantity term of qty_for_assembly is monotone in the
monthly velocity. -/
theorem base_qty_mono {m1 m2 a : ℚ} (h : m1 ≤ m2) :
    (if 0 < m1 - a then max 2 ⌈m1 - a⌉ else 2) ≤
      (if 0 < m2 - a then max 2 ⌈m2 - a⌉ else 2) := by
  by_cases h1 : 0 < m1 - a
  · rw [if_pos h1, if_pos (lt_of_lt_of_le h1 (by linarith))]
    exact max_le_max le_rfl (Int.ceil_le_ceil (by linarith))
  · rw [if_neg h1]
    by_cases h2 : 0 < m2 - a
    · rw [if_pos h2]
      exact le_max_left 2 _
    · rw [if_neg h2]

/-- qty_for_assembly is monotone in the monthly velocity with the
availability held fixed. -/
theorem qty_for_assembly_mono {m1 m2 a : ℚ} (h : m1 ≤ m2) :
    qty_for_assembly m1 a ≤ qty_for_assembly m2 a := by
  unfold qty_for_assembly
  exact min_le_min (min_le_min (base_qty_mono h)
    (max_le_max le_rfl (Int.ceil_le_ceil (by linarith)))) le_rfl

/-- qty_for_assembly never leaves the band [2, 1000]. -/
theorem qty_for_assembly_bounds (m a : ℚ) :
    2 ≤ qty_for_assembly m a ∧ qty_for_assembly m a ≤ 1000 := by
  unfold qty_for_assembly
  constructor
  · refine le_min (le_min ?_ ?_) (by norm_num)
    · by_cases h1 : 0 < m - a
      · rw [if_pos h1]
        exact le_max_left 2 _
      · rw [if_neg h1]
    · exact le_trans (by norm_num) (le_max_left 10 _)
  · exact min_le_right _ 1000

/-- C3: with total_available fixed, two monthly velocities that both
produce a candidate row give monotonically related quantities, and once
the 1000 cap is reached a larger velocity keeps the quantity at 1000. -/
theorem qty_for_assembly_monotone_and_capped (a oo d1 d2 m1 m2 : ℚ)
    (h12 : m1 ≤ m2)
    (_h1 : produces_candidate a oo d1 m1) (_h2 : produces_candidate a oo d2 m2) :
    qty_for_assembly m1 a ≤ qty_for_assembly m2 a ∧
    (qty_for_assembly m1 a = 1000 → qty_for_assembly m2 a = 1000) := by
  refine ⟨qty_for_assembly_mono h12, fun hcap => ?_⟩
  have hmono := @qty_for_assembly_mono m1 m2 a h12
  have hub := (qty_for_assembly_bounds m2 a).2
  omega

/-- C3 witness: velocities 1500 and 2000 against zero availability both
produce candidates, and the cap case fires: the quantity at velocity 2000
is pinned to 1000. -/
theorem qty_for_assembly_monotone_and_capped_witness :
    qty_for_assembly 2000 0 = 1000 :=
  (qty_for_assembly_monotone_and_capped 0 0 50 (200/3) 1500 2000 (by norm_num)
    (by constructor <;> norm_num) (by constructor <;> norm_num)).2 (by decide)

/-- C10: every candidate row that get_replenish_skus emits carries a
quantity between 2 and 1000 inclusive. -/
theorem replenish_qty_always_in_band (bom_df : Option (List BomRecord))
    (inventory_df : Option (List InventoryRecord))
    (availability_df : Option (List AvailabilityRecord))
    (sales_velocity_df : Option (List VelocityRow)) (warehouse : String)
    (c : ReplenishmentCandidate)
    (hc : c ∈ get_replenish_skus bom_df inventory_df availability_df
      sales_velocity_df warehouse) :
    2 ≤ c.qty_for_assembly ∧ c.qty_for_assembly ≤ 1000 := by
  rcases bom_df with _ | bom
  · simp [get_replenish_skus] at hc
  rcases inventory_df with _ | inventory
  · simp [get_replenish_skus] at hc
  rcases availability_df with _ | availability
  · simp [get_replenish_skus] at hc
  rcases sales_velocity_df with _ | sales_velocity
  · simp [get_replenish_skus] at hc
  rw [get_replenish_skus] at hc
  split at hc
  · simp at hc
  · rw [List.mem_filterMap] at hc
    obtain ⟨sku, _, heq⟩ := hc
    simp only [] at heq
    rw [Option.ite_none_right_eq_some, Option.some.injEq] at heq
    obtain ⟨-, heq⟩ := heq
    subst heq
    exact qty_for_assembly_bounds _ _

/-- C10 witness: the example data emits the SKU 100 candidate with
quantity 5, which the band theorem covers. -/
theorem replenish_qty_always_in_band_witness :
    2 ≤ ex_candidate.qty_for_assembly ∧ ex_candidate.qty_for_assembly ≤ 1000 :=
  replenish_qty_always_in_band (some ex_bom) (some ex_inventory) (some ex_availability)
    (some ex_velocity) "NC" ex_candidate (by decide)

/-! ## Claim C9: the Sales Velocity Estimator -/

/-- C9: every output row of calculate_sales_velocity comes from an input
row; its monthly velocity is the row total over the sales columns (all
columns except the SKU column and the Total/Average columns) divided
by 6, and its daily velocity is the same total divided by 180. -/
theorem sales_velocity_row_formulas (t : SalesTable) (v : VelocityRow)
    (hv : v ∈ calculate_sales_velocity (some t)) :
    ∃ row ∈ t.rows, v.sku = row.sku ∧
      v.avg_monthly_sales = total_6_months t row / 6 ∧
      v.avg_daily_sales = total_6_months t row / 180 := by
  simp only [calculate_sales_velocity] at hv
  split at hv
  · simp at hv
  · rw [List.mem_map] at hv
    obtain ⟨row, hrow, heq⟩ := hv
    refine ⟨row, hrow, ?_⟩
    subst heq
    refine ⟨rfl, rfl, ?_⟩
    show total_6_months t row / 6 / 30 = total_6_months t row / 180
    rw [div_div]
    norm_num

/-- C9 witness: six monthly columns of 30 units (plus an ignored Total
column) give exactly avg_daily_sales 1.0 and avg_monthly_sales 30.0. -/
theorem sales_velocity_row_formulas_witness :
    ∃ row ∈ ex_sales_table.rows,
      ({ sku := "100", avg_daily_sales := 1, avg_monthly_sales := 30 } : VelocityRow).sku
          = row.sku ∧
      ({ sku := "100", avg_daily_sales := 1, avg_monthly_sales := 30 } : VelocityRow).avg_monthly_sales
          = total_6_months ex_sales_table row / 6 ∧
      ({ sku := "100", avg_daily_sales := 1, avg_monthly_sales := 30 } : VelocityRow).avg_daily_sales
          = total_6_months ex_sales_table row / 180 :=
  sales_velocity_row_formulas ex_sales_table
    { sku := "100", avg_daily_sales := 1, avg_monthly_sales := 30 } (by decide)

/-! ## Claim C2: assembly status is the conjunction of component
readiness -/

theorem perm_isEmpty_eq {α : Type} {l1 l2 : List α} (h : l1.Perm l2) :
    l1.isEmpty = l2.isEmpty := by
  have hlen := h.length_eq
  cases l1 <;> cases l2 <;> simp_all

theorem perm_all_eq {α : Type} {l1 l2 : List α} (h : l1.Perm l2) (p : α → Bool) :
    l1.all p = l2.all p := by
  by_cases hb : l1.all p = true
  · rw [hb]
    symm
    rw [List.all_eq_true] at hb ⊢
    intro x hx
    exact hb x (h.mem_iff.mpr hx)
  · have hb2 : ¬ l2.all p = true := by
      intro hh
      apply hb
      rw [List.all_eq_true] at hh ⊢
      intro x hx
      exact hh x (h.mem_iff.mp hx)
    rw [Bool.not_eq_true] at hb hb2
    rw [hb, hb2]

theorem filterMap_pointwise {α β : Type} (l : List α) (f g : α → Option β)
    (h : ∀ x, f x = g x) : l.filterMap f = l.filterMap g := by
  induction l with
  | nil => rfl
  | cons x xs ih => rw [List.filterMap_cons, List.filterMap_cons, h x, ih]

theorem all_map_compose {α β : Type} (l : List α) (f : α → β) (p : β → Bool) :
    (l.map f).all p = l.all fun x => p (f x) := by
  induction l with
  | nil => rfl
  | cons x xs ih => rw [List.map_cons, List.all_cons, List.all_cons, ih]

/-- The feasibility fold of the analyzer is the all-components test. -/
theorem feasible_foldl_eq_all (l : List ComponentAnalysis) (b : Bool) :
    l.foldl (fun acc c => if c.status == "Shortage" then false else acc) b =
      (b && l.all fun c => !(c.status == "Shortage")) := by
  induction l generalizing b with
  | nil => simp
  | cons x xs ih =>
    rw [List.foldl_cons, ih, List.all_cons]
    by_cases hx : x.status == "Shortage"
    · simp [hx]
    · simp [hx]

/-- Every component analysis carries status Ready or Shortage. -/
theorem component_status_cases (availability : List AvailabilityRecord)
    (locations : List String) (qty : ℤ) (comp : BomRecord) :
    (component_analysis_of availability locations qty comp).status = "Ready" ∨
    (component_analysis_of availability locations qty comp).status = "Shortage" := by
  unfold component_analysis_of
  by_cases h : comp.quantity * (qty : ℚ) ≤
      (calculate_inventory_position availability comp.componentSku locations).total_available
  · left
    simp [h]
  · right
    simp [h]

/-- Status characterization of one emitted assembly analysis: Ready for
Production exactly when every component analysis is Ready, Cannot
Assemble otherwise. -/
theorem assembly_analysis_of_status (bom : List BomRecord)
    (availability : List AvailabilityRecord) (warehouse : String)
    (row : ReplenishmentCandidate) (a : AssemblyAnalysis)
    (h : assembly_analysis_of bom availability warehouse row = some a) :
    (a.assembly_status = "Ready for Production" ↔ ∀ c ∈ a.components, c.status = "Ready") ∧
    (a.assembly_status = "Ready for Production" ∨ a.assembly_status = "Cannot Assemble") := by
  unfold assembly_analysis_of at h
  simp only [] at h
  rw [Option.ite_none_left_eq_some, Option.some.injEq] at h
  obtain ⟨-, h⟩ := h
  subst h
  simp only []
  rw [feasible_foldl_eq_all, Bool.true_and, all_map_compose]
  by_cases hall : (bom.filter fun b => b.productSku == row.sku).all
      (fun x => !((component_analysis_of availability
        (if warehouse == "NC" then nc_locations else ca_locations)
        row.qty_for_assembly x).status == "Shortage")) = true
  · rw [hall]
    simp only [if_true]
    constructor
    · constructor
      · intro _ c hc
        rw [List.mem_map] at hc
        obtain ⟨comp, hcomp, hceq⟩ := hc
        rw [List.all_eq_true] at hall
        have hnot := hall comp hcomp
        rcases component_status_cases availability
            (if warehouse == "NC" then nc_locations else ca_locations)
            row.qty_for_assembly comp with hr | hs
        · rw [← hceq]
          exact hr
        · rw [hs] at hnot
          simp at hnot
      · intro _
        trivial
    · left
      trivial
  · rw [Bool.not_eq_true] at hall
    rw [hall]
    simp only [Bool.false_eq_true, if_false]
    constructor
    · constructor
      · intro hcontra
        exact absurd hcontra (by decide)
      · intro hready
        exfalso
        have : (bom.filter fun b => b.productSku == row.sku).all
            (fun x => !((component_analysis_of availability
              (if warehouse == "NC" then nc_locations else ca_locations)
              row.qty_for_assembly x).status == "Shortage")) = true := by
          rw [List.all_eq_true]
          intro comp hcomp
          have hr := hready _ (List.mem_map.mpr ⟨comp, hcomp, rfl⟩)
          rw [hr]
          decide
        rw [this] at hall
        simp at hall
    · right
      trivial

/-- Permuting the BOM rows changes neither the presence of an analysis
for a candidate nor its sku-and-status pair. -/
theorem assembly_analysis_of_perm (bom bom2 : List BomRecord)
    (availability : List AvailabilityRecord) (warehouse : String)
    (row : ReplenishmentCandidate) (hperm : bom.Perm bom2) :
    (assembly_analysis_of bom availability warehouse row).map
        (fun a => (a.assembly_sku, a.assembly_status)) =
      (assembly_analysis_of bom2 availability warehouse row).map
        (fun a => (a.assembly_sku, a.assembly_status)) := by
  unfold assembly_analysis_of
  have hcomp : (bom.filter fun b => b.productSku == row.sku).Perm
      (bom2.filter fun b => b.productSku == row.sku) := hperm.filter _
  have hempty := perm_isEmpty_eq hcomp
  by_cases he : (bom.filter fun b => b.productSku == row.sku).isEmpty
  · have he2 : (bom2.filter fun b => b.productSku == row.sku).isEmpty = true := by
      rw [← hempty]
      exact he
    rw [if_pos he, if_pos he2]
  · have he2 : ¬ (bom2.filter fun b => b.productSku == row.sku).isEmpty = true := by
      rw [← hempty]
      exact he
    rw [if_neg he, if_neg he2]
    simp only [Option.map_some]
    have hfeas : ((bom.filter fun b => b.productSku == row.sku).map
          (component_analysis_of availability
            (if warehouse == "NC" then nc_locations else ca_locations)
            row.qty_for_assembly)).foldl
          (fun acc c => if c.status == "Shortage" then false else acc) true =
        ((bom2.filter fun b => b.productSku == row.sku).map
          (component_analysis_of availability
            (if warehouse == "NC" then nc_locations else ca_locations)
            row.qty_for_assembly)).foldl
          (fun acc c => if c.status == "Shortage" then false else acc) true := by
      rw [feasible_foldl_eq_all, feasible_foldl_eq_all, all_map_compose, all_map_compose]
      rw [perm_all_eq hcomp]
    rw [hfeas]
    rfl

/-- C2: every emitted analysis is Ready for Production exactly when all
of its components are Ready (and Cannot Assemble otherwise), and the
sku-and-status output is invariant under permutations of the BOM rows. -/
theorem assembly_status_iff_all_components_ready (bom bom2 : List BomRecord)
    (availability : List AvailabilityRecord)
    (replenish : List ReplenishmentCandidate) (warehouse : String)
    (hperm : bom.Perm bom2) :
    (∀ a ∈ analyze_assembly_status (some bom) (some availability) (some replenish) warehouse,
      (a.assembly_status = "Ready for Production" ↔ ∀ c ∈ a.components, c.status = "Ready") ∧
      (a.assembly_status = "Ready for Production" ∨ a.assembly_status = "Cannot Assemble")) ∧
    (analyze_assembly_status (some bom) (some availability) (some replenish) warehouse).map
        (fun a => (a.assembly_sku, a.assembly_status)) =
      (analyze_assembly_status (some bom2) (some availability) (some replenish) warehouse).map
        (fun a => (a.assembly_sku, a.assembly_status)) := by
  constructor
  · intro a ha
    simp only [analyze_assembly_status] at ha
    split at ha
    · simp at ha
    · rw [List.mem_filterMap] at ha
      obtain ⟨row, -, heq⟩ := ha
      exact assembly_analysis_of_status bom availability warehouse row a heq
  · have hiso : bom.isEmpty = bom2.isEmpty := perm_isEmpty_eq hperm
    simp only [analyze_assembly_status]
    rw [hiso]
    by_cases hg : (bom2.isEmpty || availability.isEmpty || replenish.isEmpty) = true
    · rw [if_pos hg, if_pos hg]
    · rw [if_neg hg, if_neg hg]
      rw [List.map_filterMap, List.map_filterMap]
      exact filterMap_pointwise replenish _ _
        (fun row => assembly_analysis_of_perm bom bom2 availability warehouse row hperm)

/-- C2 witness: the two-component example (one stocked component, one
missing) analyzed against the BOM in both row orders. -/
theorem assembly_status_iff_all_components_ready_witness :
    (∀ a ∈ analyze_assembly_status (some ex_bom) (some ex_availability)
        (some [ex_candidate]) "NC",
      (a.assembly_status = "Ready for Production" ↔ ∀ c ∈ a.components, c.status = "Ready") ∧
      (a.assembly_status = "Ready for Production" ∨ a.assembly_status = "Cannot Assemble")) ∧
    (analyze_assembly_status (some ex_bom) (some ex_availability)
        (some [ex_candidate]) "NC").map (fun a => (a.assembly_sku, a.assembly_status)) =
      (analyze_assembly_status (some ex_bom_reversed) (some ex_availability)
        (some [ex_candidate]) "NC").map (fun a => (a.assembly_sku, a.assembly_status)) :=
  assembly_status_iff_all_components_ready ex_bom ex_bom_reversed ex_availability
    [ex_candidate] "NC" (by decide)

/-! ## Claim C6: the Transfer Recommender -/

/-- C6: a recommendation is emitted exactly for an Armory row with more
than 20 on hand whose SKU is no BOM component and whose Main on-hand is
below 20, carrying quantity min(armory - 20, 20 - main), with the
nonpositive-quantity guard of the source. -/
theorem transfer_emitted_iff (availability : List AvailabilityRecord)
    (bom : List BomRecord) (warehouse : String) (rec : TransferRecommendation) :
    rec ∈ generate_transfer_recommendations (some availability) (some bom) warehouse ↔
      ∃ item ∈ availability,
        item.location = armory_location warehouse ∧
        20 < item.onHand ∧
        item.sku ∉ (bom.map fun b => b.componentSku) ∧
        (calculate_inventory_position availability item.sku
          [main_location warehouse]).on_hand < 20 ∧
        0 < min (item.onHand - 20) (20 - (calculate_inventory_position availability
          item.sku [main_location warehouse]).on_hand) ∧
        rec = { sku := item.sku
                product_name := item.productName
                from_location := armory_location warehouse
                to_location := main_location warehouse
                available_armory := item.onHand
                current_main := (calculate_inventory_position availability item.sku
                  [main_location warehouse]).on_hand
                recommended_transfer := min (item.onHand - 20)
                  (20 - (calculate_inventory_position availability item.sku
                    [main_location warehouse]).on_hand)
                reason := "Balance inventory (not needed for assemblies)" } := by
  by_cases hemp : availability.isEmpty
  · rw [List.isEmpty_iff] at hemp
    subst hemp
    simp [generate_transfer_recommendations]
  · constructor
    · intro hrec
      simp only [generate_transfer_recommendations, if_neg hemp] at hrec
      rw [List.mem_filterMap] at hrec
      obtain ⟨item, hitem, hbody⟩ := hrec
      rw [List.mem_filter] at hitem
      obtain ⟨hmem, hloc⟩ := hitem
      rw [Option.ite_none_right_eq_some] at hbody
      obtain ⟨hb1, hbody⟩ := hbody
      rw [Option.ite_none_right_eq_some] at hbody
      obtain ⟨hmain, hbody⟩ := hbody
      rw [Option.ite_none_right_eq_some, Option.some.injEq] at hbody
      obtain ⟨hqty, hreceq⟩ := hbody
      rw [Bool.and_eq_true] at hb1
      refine ⟨item, hmem, by simpa using hloc, by simpa using hb1.1, ?_,
        hmain, hqty, hreceq.symm⟩
      have := hb1.2
      simpa using this
    · rintro ⟨item, hmem, hloc, hgt, hnotc, hmain, hqty, hreceq⟩
      simp only [generate_transfer_recommendations, if_neg hemp]
      rw [List.mem_filterMap]
      refine ⟨item, ?_, ?_⟩
      · rw [List.mem_filter]
        exact ⟨hmem, by simpa using hloc⟩
      · rw [Option.ite_none_right_eq_some]
        refine ⟨by simp [hgt, hnotc], ?_⟩
        rw [Option.ite_none_right_eq_some]
        refine ⟨hmain, ?_⟩
        rw [Option.ite_none_right_eq_some, Option.some.injEq]
        exact ⟨hqty, hreceq.symm⟩

/-- C6 witness: the SKU 200 scenario with 35 in the Armory and 5 in Main
produces exactly the quantity-15 recommendation. -/
theorem transfer_emitted_iff_witness :
    ex_transfer ∈ generate_transfer_recommendations (some ex_transfer_availability)
      (some ex_bom) "NC" :=
  (transfer_emitted_iff ex_transfer_availability ex_bom "NC" ex_transfer).mpr
    ⟨{ sku := "200", location := "NC - Armory", onHand := 35, onOrder := 0, inTransit := 0 },
     by decide, by decide, by decide, by decide, by decide, by decide, by decide⟩

/-! ## Claim C7: the ABC Classifier at zero overall profit -/

theorem list_sum_nonpos {l : List ℚ} (h : ∀ x ∈ l, x ≤ 0) : l.sum ≤ 0 := by
  induction l with
  | nil => simp
  | cons x xs ih =>
    rw [List.sum_cons]
    have hx := h x (List.mem_cons_self x xs)
    have hxs := ih fun y hy => h y (List.mem_cons_of_mem x hy)
    linarith

/-- Down a descending-sorted profit list whose remaining mass balances
the accumulator to zero, every nonpositive row has a nonnegative
cumulative sum. -/
theorem cumulative_profit_nonneg (l : List (String × ℚ)) (acc : ℚ)
    (hs : l.Pairwise fun a b => b.2 ≤ a.2)
    (hsum : acc + (l.map fun x => x.2).sum = 0) :
    ∀ t ∈ cumulative_profit acc l, t.2.1 ≤ 0 → 0 ≤ t.2.2 := by
  induction l generalizing acc with
  | nil =>
    intro t ht
    simp [cumulative_profit] at ht
  | cons x rest ih =>
    intro t ht hp
    rw [List.pairwise_cons] at hs
    obtain ⟨hhead, hrest⟩ := hs
    simp only [cumulative_profit, List.mem_cons] at ht
    rcases ht with heq | hmem
    · subst heq
      simp only [] at hp ⊢
      simp only [List.map_cons, List.sum_cons] at hsum
      have hrest_nonpos : (rest.map fun y => y.2).sum ≤ 0 := by
        apply list_sum_nonpos
        intro y hy
        rw [List.mem_map] at hy
        obtain ⟨z, hz, hzeq⟩ := hy
        rw [← hzeq]
        exact le_trans (hhead z hz) hp
      linarith
    · refine ih (acc + x.2) hrest ?_ t hmem hp
      simp only [List.map_cons, List.sum_cons] at hsum
      linarith

/-- Division by the zero overall total on a nonnegative cumulative sum
lands in the C branch of the category masks. -/
theorem abc_category_of_nonneg_div_zero (c : ℚ) (hc : 0 ≤ c) :
    abc_category_of (pandas_div c 0) = "C" := by
  unfold pandas_div
  rw [if_pos rfl]
  rcases lt_or_eq_of_le hc with hpos | heq
  · rw [if_pos hpos]
    rfl
  · rw [← heq, if_neg (lt_irrefl 0), if_neg (lt_irrefl 0)]
    rfl

/-- C7: when the overall profit total is exactly 0, the classifier still
returns a category for every row, and every row with nonpositive profit
contribution is assigned category C. -/
theorem abc_zero_total_nonpositive_rows_are_C (rows : List ProfitRow)
    (htotal : (rows.map fun r => r.profits.sum).sum = 0) :
    ∀ rec ∈ calculate_abc_analysis (some rows), rec.total_profit ≤ 0 →
      rec.abc_category = "C" := by
  intro rec hrec hnp
  simp only [calculate_abc_analysis] at hrec
  split at hrec
  · simp at hrec
  · rw [List.mem_map] at hrec
    obtain ⟨t, ht, hteq⟩ := hrec
    subst hteq
    have hperm : ((rows.map fun r => (r.sku, r.profits.sum)).insertionSort
        fun a b => b.2 ≤ a.2).Perm (rows.map fun r => (r.sku, r.profits.sum)) :=
      List.perm_insertionSort _ _
    have htot0 : (((rows.map fun r => (r.sku, r.profits.sum)).insertionSort
        fun a b => b.2 ≤ a.2).map fun x => x.2).sum = 0 := by
      rw [(hperm.map fun x => x.2).sum_eq, List.map_map]
      exact htotal
    have hsorted : ((rows.map fun r => (r.sku, r.profits.sum)).insertionSort
        fun a b => b.2 ≤ a.2).Pairwise fun a b => b.2 ≤ a.2 := by
      haveI : IsTotal (String × ℚ) fun a b => b.2 ≤ a.2 := ⟨fun a b => le_total b.2 a.2⟩
      haveI : IsTrans (String × ℚ) fun a b => b.2 ≤ a.2 :=
        ⟨fun _ _ _ h1 h2 => le_trans h2 h1⟩
      exact List.sorted_insertionSort _ _
    have hcum : 0 ≤ t.2.2 :=
      cumulative_profit_nonneg _ 0 hsorted (by rw [zero_add]; exact htot0) t ht hnp
    show abc_category_of (pandas_div t.2.2
      (((rows.map fun r => (r.sku, r.profits.sum)).insertionSort
        fun a b => b.2 ≤ a.2).map fun x => x.2).sum) = "C"
    rw [htot0]
    exact abc_category_of_nonneg_div_zero _ hcum

/-- C7 witness: the profit table with rows +5 and -5 totals zero and the
-5 row is classified C. -/
theorem abc_zero_total_nonpositive_rows_are_C_witness :
    ex_profit_record.abc_category = "C" :=
  abc_zero_total_nonpositive_rows_are_C ex_profit (by decide) ex_profit_record
    (by decide) (by decide)

/-! ## Claim C1: the Adjusted Monthly Sales column of the PO export -/

/-- C1 counterexample: on a row whose velocity adjustment is +0.1 the
emitted Adjusted Monthly Sales is 30 (the raw input velocity times 30),
not the margin-adjusted velocity times 30 (which is 33): generate_po_csv
multiplies the raw input column, not AdjustedSalesVelocity. -/
theorem po_csv_adjusted_monthly_sales_not_adjusted :
    ¬ ∀ line ∈ generate_po_csv [ex_po_row] [],
      line.adjustedMonthlySales = adjusted_sales_velocity ex_po_row * 30 := by
  decide

/-- C1 amended: every line of the export carries Adjusted Monthly Sales
equal to the raw input velocity column (Adjusted sales velocity/day) of
one of its source rows times 30, computed on the rows before the
supplier-product-price aggregation. -/
theorem po_csv_adjusted_monthly_sales_from_base (df : List PoRow)
    (excluded_suppliers : List String) (line : PoLine)
    (hline : line ∈ generate_po_csv df excluded_suppliers) :
    ∃ r ∈ df, line.adjustedMonthlySales = r.adjustedSalesVelocityPerDay * 30 := by
  simp only [generate_po_csv] at hline
  rw [List.mem_filterMap] at hline
  obtain ⟨k, -, heq⟩ := hline
  split at heq
  · exact absurd heq (by simp)
  · rename_i h hhead
    rw [Option.some.injEq] at heq
    subst heq
    have hgrp := mem_of_head_opt hhead
    rw [List.mem_filter] at hgrp
    obtain ⟨hgrp, -⟩ := hgrp
    rw [List.mem_filter] at hgrp
    obtain ⟨hgrp, -⟩ := hgrp
    rw [List.mem_filter] at hgrp
    obtain ⟨hgrp, -⟩ := hgrp
    rw [List.mem_filterMap] at hgrp
    obtain ⟨r, hr, hbuild⟩ := hgrp
    refine ⟨r, hr, ?_⟩
    rcases hsupp : r.lastSuppliedBy with _ | supplier
    · rw [hsupp] at hbuild
      exact absurd hbuild (by simp)
    · simp only [hsupp, Option.some.injEq] at hbuild
      rw [← hbuild]
      rfl

/-- C1 amended witness: the single-row example produces one line whose
Adjusted Monthly Sales is the raw velocity of that row times 30. -/
theorem po_csv_adjusted_monthly_sales_from_base_witness :
    ∃ r ∈ [ex_po_row], ex_po_line.adjustedMonthlySales =
      r.adjustedSalesVelocityPerDay * 30 :=
  po_csv_adjusted_monthly_sales_from_base [ex_po_row] [] ex_po_line (by decide)

/-! ## Claim C8: behavior on entirely absent input tables -/

/-- C8 counterexample: with the BOM table entirely absent, both pipeline
stages return the plain empty result that is also the recovery value of
the present-but-incomplete cases; no failure is surfaced to the caller. -/
theorem missing_table_recovers_with_empty :
    get_replenish_skus none (some ex_inventory) (some ex_availability)
        (some ex_velocity) "NC" = [] ∧
    analyze_assembly_status none (some ex_availability)
        (some [ex_candidate]) "NC" = [] :=
  ⟨rfl, rfl⟩

/-- C8 amended: whenever any required top-level input table is absent
(None), get_replenish_skus and analyze_assembly_status recover with the
empty result instead of halting the run. -/
theorem missing_table_returns_empty :
    (∀ (bom : Option (List BomRecord)) (inventory : Option (List InventoryRecord))
        (availability : Option (List AvailabilityRecord))
        (velocity : Option (List VelocityRow)) (warehouse : String),
      bom = none ∨ inventory = none ∨ availability = none ∨ velocity = none →
      get_replenish_skus bom inventory availability velocity warehouse = []) ∧
    (∀ (bom : Option (List BomRecord))
        (availability : Option (List AvailabilityRecord))
        (replenish : Option (List ReplenishmentCandidate)) (warehouse : String),
      bom = none ∨ availability = none ∨ replenish = none →
      analyze_assembly_status bom availability replenish warehouse = []) := by
  constructor
  · intro bom inventory availability velocity warehouse h
    rcases h with rfl | rfl | rfl | rfl
    · cases inventory <;> cases availability <;> cases velocity <;> rfl
    · cases bom <;> cases availability <;> cases velocity <;> rfl
    · cases bom <;> cases inventory <;> cases velocity <;> rfl
    · cases bom <;> cases inventory <;> cases availability <;> rfl
  · intro bom availability replenish warehouse h
    rcases h with rfl | rfl | rfl
    · cases availability <;> cases replenish <;> rfl
    · cases bom <;> cases replenish <;> rfl
    · cases bom <;> cases availability <;> rfl

/-- C8 amended witness: the absent-BOM case on the example tables. -/
theorem missing_table_returns_empty_witness :
    get_replenish_skus none (some ex_inventory) (some ex_availability)
        (some ex_velocity) "NC" = [] ∧
    analyze_assembly_status none (some ex_availability)
        (some [ex_candidate]) "CA" = [] :=
  ⟨missing_table_returns_empty.1 none (some ex_inventory) (some ex_availability)
      (some ex_velocity) "NC" (Or.inl rfl),
   missing_table_returns_empty.2 none (some ex_availability)
      (some [ex_candidate]) "CA" (Or.inl rfl)⟩

end DBI
